import Mathlib

/-!
Shallow embedding of the cartridge memory-bank-controller (MBC) subsystem and
the relevant memory-bus paths of the gbc Game Boy Color emulator
(source files: src/lib/src/cartridge.rs and src/lib/src/memory.rs).

Machine integers are embedded as Nat, with explicit masking exactly where the
source masks. A Rust panic (a failed assert!, an unwrap() of None, an
out-of-bounds index, or unreachable!) is embedded as a none result of an
Option-valued function. File handles (the battery save file, the RTC sidecar
file, the boot-ROM blob) are side effects outside the modelled state and are
omitted; they do not influence any of the modelled state transitions.
-/

namespace Gbc

/-- RamSize enum from cartridge.rs: cartridge RAM size variants
(NotPresent, _2K, _8K, _32K, _128K, _64K). Leading underscores of the
Rust variant names are replaced by the letter R. -/
inductive RamSize
  | NotPresent
  | R2K
  | R8K
  | R32K
  | R128K
  | R64K
deriving DecidableEq

/-- From-instance impl From RamSize for usize in cartridge.rs:
raw RAM size in bytes. -/
def RamSize.toBytes : RamSize → Nat
  | .R2K => 2 * 1024
  | .R8K => 8 * 1024
  | .R32K => 32 * 1024
  | .R64K => 64 * 1024
  | .R128K => 128 * 1024
  | .NotPresent => 0

/-- RomSize enum from cartridge.rs. Leading underscores of the Rust variant
names are replaced by the letter S; _1_1M becomes S1x1M and so on. -/
inductive RomSize
  | S32K
  | S64K
  | S128K
  | S256K
  | S512K
  | S1M
  | S2M
  | S4M
  | S8M
  | S1x1M
  | S1x2M
  | S1x5M
deriving DecidableEq

/-- Rom::BANK_SIZE from cartridge.rs: 16 KiB per ROM bank. -/
def Rom.BANK_SIZE : Nat := 16 * 1024

/-- From-instance impl From RomSize for usize in cartridge.rs:
raw ROM size in bytes. -/
def RomSize.toBytes : RomSize → Nat
  | .S32K => 2 * Rom.BANK_SIZE
  | .S64K => 4 * Rom.BANK_SIZE
  | .S128K => 8 * Rom.BANK_SIZE
  | .S256K => 16 * Rom.BANK_SIZE
  | .S512K => 32 * Rom.BANK_SIZE
  | .S1M => 64 * Rom.BANK_SIZE
  | .S1x1M => 72 * Rom.BANK_SIZE
  | .S1x2M => 80 * Rom.BANK_SIZE
  | .S1x5M => 96 * Rom.BANK_SIZE
  | .S2M => 128 * Rom.BANK_SIZE
  | .S4M => 256 * Rom.BANK_SIZE
  | .S8M => 512 * Rom.BANK_SIZE

/-- Struct Ram from cartridge.rs: banked external cartridge RAM.
The optional battery save file handle is omitted (pure side effect). -/
structure Ram where
  data : List Nat
  active_bank : Nat
  num_banks : Nat
  ram_size : RamSize
deriving DecidableEq

/-- Ram::BANK_SIZE from cartridge.rs: 8 KiB per cartridge-RAM bank. -/
def Ram.BANK_SIZE : Nat := 8 * 1024

/-- Ram::BASE_ADDR from cartridge.rs. -/
def Ram.BASE_ADDR : Nat := 0xA000

/-- Ram::LAST_ADDR from cartridge.rs. -/
def Ram.LAST_ADDR : Nat := 0xBFFF

/-- Ram::new from cartridge.rs: returns None for RamSize::NotPresent,
otherwise a zero-filled store; a 2K cartridge gets num_banks = 1, larger
cartridges get size / BANK_SIZE banks. -/
def Ram.new (ram_size : RamSize) : Option Ram :=
  match ram_size with
  | .NotPresent => none
  | _ =>
    let size := ram_size.toBytes
    let data := List.replicate size 0
    let num_banks := if ram_size = .R2K then 1 else size / Ram.BANK_SIZE
    some { data := data, active_bank := 0, num_banks := num_banks, ram_size := ram_size }

/-- Ram::set_bank from cartridge.rs: active_bank := bank AND (num_banks - 1).
The warning log on unbanked RAM is a side effect and is omitted. -/
def Ram.set_bank (r : Ram) (bank : Nat) : Ram :=
  { r with active_bank := bank &&& (r.num_banks - 1) }

/-- MemoryRead impl for cartridge Ram (cartridge.rs): byte of the active bank
at data index active_bank * BANK_SIZE + (addr - BASE_ADDR); an out-of-bounds
index is a Rust panic, embedded as none. -/
def Ram.read (r : Ram) (addr : Nat) : Option Nat :=
  let a := addr - Ram.BASE_ADDR
  let bank_offset := r.active_bank * Ram.BANK_SIZE
  r.data.get? (bank_offset + a)

/-- MemoryWrite impl for cartridge Ram (cartridge.rs): store the byte at
data index active_bank * BANK_SIZE + (addr - BASE_ADDR); an out-of-bounds
index is a Rust panic, embedded as none. The write-through to the battery
file is a side effect and is omitted. -/
def Ram.write (r : Ram) (addr value : Nat) : Option Ram :=
  let a := addr - Ram.BASE_ADDR
  let bank_offset := r.active_bank * Ram.BANK_SIZE
  let index := bank_offset + a
  if index < r.data.length then some { r with data := r.data.set index value } else none

/-- Struct Rom from cartridge.rs: flat ROM data with two active bank
pointers (active_bank_0 for 0x0000-0x3FFF, active_bank_1 for 0x4000-0x7FFF). -/
structure Rom where
  data : List Nat
  active_bank_0 : Nat
  active_bank_1 : Nat
  num_banks : Nat
  rom_size : RomSize
deriving DecidableEq

/-- Rom::new from cartridge.rs: zero-filled data of rom_size bytes,
active_bank_0 = 0, active_bank_1 = 1, num_banks = size / BANK_SIZE. -/
def Rom.new (rom_size : RomSize) : Rom :=
  let size := rom_size.toBytes
  let num_banks := size / Rom.BANK_SIZE
  { data := List.replicate size 0, active_bank_0 := 0, active_bank_1 := 1,
    num_banks := num_banks, rom_size := rom_size }

/-- Rom::update_bank_0 from cartridge.rs: assert!(bank < num_banks) then
set active_bank_0; the failed assertion panic is embedded as none. -/
def Rom.update_bank_0 (r : Rom) (bank : Nat) : Option Rom :=
  if bank < r.num_banks then some { r with active_bank_0 := bank } else none

/-- Rom::update_bank from cartridge.rs: assert!(bank < num_banks) then
set active_bank_1; the failed assertion panic is embedded as none. -/
def Rom.update_bank (r : Rom) (bank : Nat) : Option Rom :=
  if bank < r.num_banks then some { r with active_bank_1 := bank } else none

/-- MemoryRead impl for Rom (cartridge.rs): 0x0000-0x3FFF reads from
active_bank_0, 0x4000-0x7FFF reads from active_bank_1; any other address is
unreachable! and an out-of-bounds index panics, both embedded as none. -/
def Rom.read (r : Rom) (addr : Nat) : Option Nat :=
  if addr ≤ 0x3FFF then
    r.data.get? (r.active_bank_0 * Rom.BANK_SIZE + addr)
  else if addr ≤ 0x7FFF then
    r.data.get? (r.active_bank_1 * Rom.BANK_SIZE + (addr - 0x4000))
  else none

/-- CartridgeType enum from cartridge.rs (full closed set of variants). -/
inductive CartridgeType
  | Rom
  | Mbc1
  | Mbc1Ram
  | Mbc1RamBattery
  | Mbc2
  | Mbc2Battery
  | RomRam
  | RomRamBattery
  | Mmm01
  | Mmm01Ram
  | Mmm01RamBattery
  | Mbc3TimerBattery
  | Mbc3TimerRamBattery
  | Mbc3
  | Mbc3Ram
  | Mbc3RamBattery
  | Mbc4
  | Mbc4Ram
  | Mbc4RamBattery
  | Mbc5
  | Mbc5Ram
  | Mbc5RamBattery
  | Mbc5Rumble
  | Mbc5RumbleRam
  | Mbc5RumbleRamBattery
  | PocketCamera
  | BandaiTama5
  | HuC3
  | HuC1RamBattery
deriving DecidableEq

/-- CartridgeType::is_mbc1 from cartridge.rs. -/
def CartridgeType.is_mbc1 : CartridgeType → Bool
  | .Mbc1 | .Mbc1Ram | .Mbc1RamBattery => true
  | _ => false

/-- CartridgeType::is_mbc2 from cartridge.rs. -/
def CartridgeType.is_mbc2 : CartridgeType → Bool
  | .Mbc2 | .Mbc2Battery => true
  | _ => false

/-- CartridgeType::is_mbc3 from cartridge.rs. -/
def CartridgeType.is_mbc3 : CartridgeType → Bool
  | .Mbc3 | .Mbc3Ram | .Mbc3RamBattery | .Mbc3TimerBattery | .Mbc3TimerRamBattery => true
  | _ => false

/-- CartridgeType::is_mbc5 from cartridge.rs. -/
def CartridgeType.is_mbc5 : CartridgeType → Bool
  | .Mbc5 | .Mbc5Ram | .Mbc5RamBattery | .Mbc5Rumble | .Mbc5RumbleRam
  | .Mbc5RumbleRamBattery => true
  | _ => false

/-- Modelled from the spec: the file src/lib/src/rtc.rs (crate::rtc::Rtc) is
not among the provided sources; only its callers in cartridge.rs are. Per
spec sections 3 and 4.4: registers S, M, H, DL, DH plus a latched shadow
copy, a selected-register index in 8..=0xC, and a last-latch-write value;
reads return the shadow when latched. -/
structure Rtc where
  s : Nat
  m : Nat
  h : Nat
  dl : Nat
  dh : Nat
  shadow_s : Nat
  shadow_m : Nat
  shadow_h : Nat
  shadow_dl : Nat
  shadow_dh : Nat
  selected : Nat
  latch_val : Nat
  latched : Bool
deriving DecidableEq

/-- Modelled from the spec (section 4.4): select(reg) chooses the register
mapped into the 0xA000-0xBFFF window. -/
def Rtc.select (r : Rtc) (reg : Nat) : Rtc := { r with selected := reg }

/-- Modelled from the spec (section 4.4): a 0 to 1 transition of the written
latch value copies the live registers into the shadow; afterwards reads
return shadow values. -/
def Rtc.latch (r : Rtc) (v : Nat) : Rtc :=
  if r.latch_val = 0 ∧ v = 1 then
    { r with shadow_s := r.s, shadow_m := r.m, shadow_h := r.h,
             shadow_dl := r.dl, shadow_dh := r.dh, latched := true, latch_val := v }
  else { r with latch_val := v }

/-- Modelled from the spec (section 4.4): read returns the currently selected
register, from the shadow copy when latched. -/
def Rtc.read (r : Rtc) : Nat :=
  match r.selected with
  | 0x8 => if r.latched then r.shadow_s else r.s
  | 0x9 => if r.latched then r.shadow_m else r.m
  | 0xA => if r.latched then r.shadow_h else r.h
  | 0xB => if r.latched then r.shadow_dl else r.dl
  | 0xC => if r.latched then r.shadow_dh else r.dh
  | _ => 0xFF

/-- Modelled from the spec (section 4.4): write targets the currently
selected register. -/
def Rtc.write (r : Rtc) (v : Nat) : Rtc :=
  match r.selected with
  | 0x8 => { r with s := v }
  | 0x9 => { r with m := v }
  | 0xA => { r with h := v }
  | 0xB => { r with dl := v }
  | 0xC => { r with dh := v }
  | _ => r

/-- Struct Controller from cartridge.rs: the cartridge ROM + RAM controller.
The boot_rom field (a static 256-byte blob untouched by every modelled
operation) is omitted. -/
structure Controller where
  rom : Rom
  ram : Option Ram
  rom_size : RomSize
  ram_size : RamSize
  cartridge_type : CartridgeType
  rtc : Option Rtc
  rtc_active : Bool
  banking_mode : Bool
  ram_enable : Bool
  ram_rom_bank : Nat
deriving DecidableEq

/-- Controller::new from cartridge.rs: default controller with a 32K ROM,
an 8K RAM, cartridge type Mbc1, no RTC, all flags cleared. -/
def Controller.new : Controller :=
  { rom := Rom.new .S32K
    ram := Ram.new .R8K
    rom_size := .S32K
    ram_size := .R8K
    cartridge_type := .Mbc1
    rtc := none
    rtc_active := false
    banking_mode := false
    ram_enable := false
    ram_rom_bank := 0 }

/-- MemoryRead impl for Controller (cartridge.rs): ROM range delegates to the
ROM store; 0xA000-0xBFFF returns the RTC register when rtc_active and the RAM
byte otherwise; unwrap() of a missing store and the unreachable! fallthrough
are embedded as none. -/
def Controller.read (c : Controller) (addr : Nat) : Option Nat :=
  if addr ≤ 0x7FFF then c.rom.read addr
  else if 0xA000 ≤ addr ∧ addr ≤ 0xBFFF then
    if !c.rtc_active then c.ram.bind fun r => r.read addr
    else c.rtc.map fun t => Rtc.read t
  else none

/-- MemoryWrite impl for Controller (cartridge.rs): decodes control writes per
cartridge family, in the source's match-arm order; a failed bank assert, an
unwrap() of a missing store, and the unreachable! arm of the MBC3 register
select are embedded as none. -/
def Controller.write (c : Controller) (addr value : Nat) : Option Controller :=
  if addr ≤ 0x1FFF ∧ c.cartridge_type.is_mbc1 then
    if value &&& 0xF = 0xA then some { c with ram_enable := true }
    else some { c with ram_enable := false }
  else if 0x2000 ≤ addr ∧ addr ≤ 0x3FFF ∧ c.cartridge_type.is_mbc1 then
    (c.rom.update_bank (if value &&& 0x1F = 0 then 1 else value &&& 0x1F)).map
      fun r2 => { c with rom := r2 }
  else if 0x4000 ≤ addr ∧ addr ≤ 0x5FFF ∧ c.cartridge_type.is_mbc1 then
    if c.ram_size.toBytes = RamSize.R32K.toBytes then
      c.ram.map fun r => { c with
        ram := some (r.set_bank (value &&& 0x03))
        ram_rom_bank := value &&& 0x03 }
    else if RomSize.S1M.toBytes ≤ c.rom_size.toBytes then
      if !c.banking_mode then
        (c.rom.update_bank (c.rom.active_bank_1 ||| ((value &&& 0x03) <<< 5))).map
          fun r2 => { c with rom := r2, ram_rom_bank := value &&& 0x03 }
      else
        (match value &&& 0x03 with
          | 0 => some 0
          | 1 => some 0x20
          | 2 => some 0x40
          | 3 => some 0x60
          | _ => none).bind fun b0 => (c.rom.update_bank_0 b0).map fun r2 =>
            { c with rom := r2, ram_rom_bank := value &&& 0x03 }
    else some { c with ram_rom_bank := value &&& 0x03 }
  else if 0x6000 ≤ addr ∧ addr ≤ 0x7FFF ∧ c.cartridge_type.is_mbc1 then
    if ¬ RamSize.R32K.toBytes ≤ c.ram_size.toBytes ∧
        ¬ RomSize.S1M.toBytes ≤ c.rom_size.toBytes then
      some c
    else
      if c.ram_enable ∧ RamSize.R32K.toBytes ≤ c.ram_size.toBytes ∧
          (value &&& 0x01 == 1) then
        c.ram.map fun r => { c with
          ram := some (r.set_bank c.ram_rom_bank)
          banking_mode := value &&& 0x01 == 1 }
      else some { c with banking_mode := value &&& 0x01 == 1 }
  else if addr ≤ 0x3FFF ∧ c.cartridge_type.is_mbc2 then
    if value &&& (1 <<< 7) = 0 then some c
    else
      if ((addr >>> 8) &&& 0xFF) &&& 1 ≠ 0 then
        (c.rom.update_bank (if value &&& 0xF = 0 then 1 else value &&& 0xF)).map
          fun r2 => { c with rom := r2 }
      else some c
  else if addr ≤ 0x1FFF ∧ c.cartridge_type.is_mbc3 then
    some { c with ram_enable := value == 0xA }
  else if 0x2000 ≤ addr ∧ addr ≤ 0x3FFF ∧ c.cartridge_type.is_mbc3 then
    (c.rom.update_bank (if value &&& 0x7F = 0 then 1 else value &&& 0x7F)).map
      fun r2 => { c with rom := r2 }
  else if 0x4000 ≤ addr ∧ addr ≤ 0x5FFF ∧ c.cartridge_type.is_mbc3 then
    if value &&& 0x0F ≤ 0x3 then
      c.ram.map fun r => { c with
        ram := some (r.set_bank (value &&& 0x0F))
        rtc_active := false }
    else if 0x8 ≤ value &&& 0x0F ∧ value &&& 0x0F ≤ 0xC then
      c.rtc.map fun t => { c with
        rtc := some (t.select (value &&& 0x0F))
        rtc_active := true }
    else none
  else if 0x6000 ≤ addr ∧ addr ≤ 0x7FFF ∧ c.cartridge_type.is_mbc3 then
    c.rtc.map fun t => { c with rtc := some (t.latch value) }
  else if addr ≤ 0x1FFF ∧ c.cartridge_type.is_mbc5 then
    some { c with ram_enable := value == 0b1010 }
  else if 0x2000 ≤ addr ∧ addr ≤ 0x2FFF ∧ c.cartridge_type.is_mbc5 then
    (c.rom.update_bank ((c.rom.active_bank_1 &&& 0xFF00) ||| value)).map fun r2 =>
      { c with rom := r2 }
  else if 0x3000 ≤ addr ∧ addr ≤ 0x3FFF ∧ c.cartridge_type.is_mbc5 then
    (c.rom.update_bank (c.rom.active_bank_1 ||| ((value &&& 0x1) <<< 8))).map fun r2 =>
      { c with rom := r2 }
  else if 0x4000 ≤ addr ∧ addr ≤ 0x5FFF ∧ c.cartridge_type.is_mbc5 then
    c.ram.map fun r => { c with ram := some (r.set_bank (value &&& 0xF)) }
  else if 0xA000 ≤ addr ∧ addr ≤ 0xBFFF ∧ !c.rtc_active then
    if c.ram_enable then
      c.ram.bind fun r => (r.write addr value).map fun r2 => { c with ram := some r2 }
    else some c
  else if 0xA000 ≤ addr ∧ addr ≤ 0xBFFF ∧ c.rtc_active then
    if c.ram_enable then
      c.rtc.map fun t => { c with rtc := some (t.write value) }
    else some c
  else some c

/-- The CartridgeRam arm of MemoryBus::read (memory.rs, the
CartridgeRam::BASE_ADDR..=CartridgeRam::LAST_ADDR case): the bus reads
cartridge RAM directly via self.controller.ram.as_ref().unwrap().read(addr),
bypassing Controller::read entirely; the unwrap() of a missing RAM store is a
panic, embedded as none. Addresses in 0xA000..=0xBFFF dispatch only to this
arm of the bus match. -/
def MemoryBus.read_cart_ram (c : Controller) (addr : Nat) : Option Nat :=
  c.ram.bind fun r => r.read addr

namespace Memory

/-- Enum Ram from memory.rs: internal console work RAM, either two static 4K
banks (DMG) or eight 4K banks with an active-bank index (CGB). -/
inductive Ram
  | Unbanked (data : List Nat)
  | Banked (data : List Nat) (active_bank : Nat)
deriving DecidableEq

/-- Memory Ram::BANK_SIZE from memory.rs: 4 KiB per work-RAM bank. -/
def Ram.BANK_SIZE : Nat := 4 * 1024

/-- Memory Ram::BASE_ADDR from memory.rs. -/
def Ram.BASE_ADDR : Nat := 0xC000

/-- Memory Ram::LAST_ADDR from memory.rs. -/
def Ram.LAST_ADDR : Nat := 0xDFFF

/-- Memory Ram::new from memory.rs: CGB gets eight zero-filled 4K banks with
active_bank = 0, DMG gets two static 4K banks. -/
def Ram.new (cgb : Bool) : Ram :=
  if cgb then .Banked (List.replicate (Ram.BANK_SIZE * 8) 0) 0
  else .Unbanked (List.replicate (Ram.BANK_SIZE * 2) 0)

/-- Memory Ram::update_bank from memory.rs: on banked (CGB) RAM set
active_bank := bank AND 0b0111; on unbanked RAM the source panics,
embedded as none. -/
def Ram.update_bank (r : Ram) (bank : Nat) : Option Ram :=
  match r with
  | .Banked data _ => some (.Banked data (bank &&& 0b0111))
  | .Unbanked _ => none

/-- MemoryRead impl for memory Ram (memory.rs): offsets 0x0000..=0x0FFF read
the first bank; larger offsets read data at active_bank * BANK_SIZE plus the
full offset (the offset is not rebased); out-of-bounds indices panic,
embedded as none. -/
def Ram.read (r : Ram) (addr : Nat) : Option Nat :=
  let a := addr - Ram.BASE_ADDR
  match r with
  | .Unbanked data => data.get? a
  | .Banked data active_bank =>
    if a ≤ 0x0FFF then data.get? a
    else data.get? (active_bank * Ram.BANK_SIZE + a)

/-- MemoryWrite impl for memory Ram (memory.rs): same indexing as the read
path; out-of-bounds indices panic, embedded as none. -/
def Ram.write (r : Ram) (addr value : Nat) : Option Ram :=
  let a := addr - Ram.BASE_ADDR
  match r with
  | .Unbanked data =>
    if a < data.length then some (.Unbanked (data.set a value)) else none
  | .Banked data active_bank =>
    if a ≤ 0x0FFF then
      if a < data.length then some (.Banked (data.set a value) active_bank) else none
    else
      let i := active_bank * Ram.BANK_SIZE + a
      if i < data.length then some (.Banked (data.set i value) active_bank) else none

end Memory

/-- Struct Cartridge from cartridge.rs, restricted to its header field (the
ROM file handle, path and boot-ROM flag are I/O concerns outside the modelled
state). The header is the 0x50 bytes read from file offset 0x100. -/
structure Cartridge where
  header : List Nat
deriving DecidableEq

/-- Wrapping subtraction on 8-bit values (u8::wrapping_sub), on Nat. -/
def u8_wrapping_sub (a b : Nat) : Nat := (a % 256 + 256 - b % 256) % 256

/-- Cartridge::header_checksum from cartridge.rs: the stored checksum byte at
header offset 0x4D. -/
def Cartridge.header_checksum (c : Cartridge) : Nat := c.header.getD 0x4D 0

/-- Cartridge::verify_header_checksum from cartridge.rs: fold
checksum = checksum.wrapping_sub(b).wrapping_sub(1) over header bytes
0x34..=0x4C (25 bytes) starting from 0, then compare with the stored
checksum byte. -/
def Cartridge.verify_header_checksum (c : Cartridge) : Bool :=
  ((c.header.drop 0x34).take 25).foldl
    (fun chk b => u8_wrapping_sub (u8_wrapping_sub chk b) 1) 0
    == c.header_checksum

/-- Written from the spec's words (for comparison with
Cartridge.verify_header_checksum): the wrapping 8-bit sum over header bytes
0x34..=0x4C of the quantity minus b minus 1, i.e. of 255 - b modulo 256. -/
def spec_header_checksum (c : Cartridge) : Nat :=
  (((c.header.drop 0x34).take 25).map fun b => 255 - b % 256).sum % 256

/-- Invariant of a cartridge RAM store: at least one bank, and the active
bank index in range. Every store built by Ram::new satisfies it. -/
def Ram.Inv (r : Ram) : Prop := 1 ≤ r.num_banks ∧ r.active_bank < r.num_banks

/-- Invariant of the RAM component of a controller: trivial when no RAM is
present. -/
def ramInvOpt : Option Ram → Prop
  | none => True
  | some r => r.Inv

/-- The bank-index invariant of claim C6: both ROM bank pointers in range,
and the cartridge-RAM invariant when RAM is present. -/
def Controller.Inv (c : Controller) : Prop :=
  c.rom.active_bank_0 < c.rom.num_banks ∧ c.rom.active_bank_1 < c.rom.num_banks ∧
    ramInvOpt c.ram

/-- Fixture: an MBC2 cartridge controller with a 64 KiB (4-bank) ROM. -/
def mbc2_test : Controller :=
  { Controller.new with
    cartridge_type := CartridgeType.Mbc2
    rom := Rom.new RomSize.S64K
    rom_size := RomSize.S64K }

/-- Fixture: an MBC3 cartridge controller (default ROM and RAM, no RTC). -/
def mbc3_test : Controller :=
  { Controller.new with cartridge_type := CartridgeType.Mbc3 }

/-- Fixture: an MBC1 cartridge controller with a 2 MiB (128-bank) ROM. -/
def mbc1_2m : Controller :=
  { Controller.new with
    rom := Rom.new RomSize.S2M
    rom_size := RomSize.S2M }

/-- Fixture: an MBC5 cartridge controller with an 8 MiB (512-bank) ROM. -/
def mbc5_8m : Controller :=
  { Controller.new with
    cartridge_type := CartridgeType.Mbc5
    rom := Rom.new RomSize.S8M
    rom_size := RomSize.S8M }

/-- Fixture: a controller whose cartridge has no RAM. -/
def noram_test : Controller :=
  { Controller.new with
    ram := none
    ram_size := RamSize.NotPresent }

/-- Fixture: a controller whose cartridge header declares 2 KiB of RAM, with
RAM enabled. -/
def ram2k_test : Controller :=
  { Controller.new with
    ram := Ram.new RamSize.R2K
    ram_size := RamSize.R2K
    ram_enable := true }

/-- The cartridge-type families are mutually exclusive: is_mbc2 excludes is_mbc1. -/
theorem CartridgeType.not_mbc1_of_mbc2 (t : CartridgeType) (h : t.is_mbc2 = true) :
    t.is_mbc1 = false := by
  revert h; cases t <;> decide

/-- The cartridge-type families are mutually exclusive: is_mbc3 excludes is_mbc1. -/
theorem CartridgeType.not_mbc1_of_mbc3 (t : CartridgeType) (h : t.is_mbc3 = true) :
    t.is_mbc1 = false := by
  revert h; cases t <;> decide

/-- The cartridge-type families are mutually exclusive: is_mbc3 excludes is_mbc2. -/
theorem CartridgeType.not_mbc2_of_mbc3 (t : CartridgeType) (h : t.is_mbc3 = true) :
    t.is_mbc2 = false := by
  revert h; cases t <;> decide

/-- The cartridge-type families are mutually exclusive: is_mbc5 excludes is_mbc1. -/
theorem CartridgeType.not_mbc1_of_mbc5 (t : CartridgeType) (h : t.is_mbc5 = true) :
    t.is_mbc1 = false := by
  revert h; cases t <;> decide

/-- The cartridge-type families are mutually exclusive: is_mbc5 excludes is_mbc2. -/
theorem CartridgeType.not_mbc2_of_mbc5 (t : CartridgeType) (h : t.is_mbc5 = true) :
    t.is_mbc2 = false := by
  revert h; cases t <;> decide

/-- The cartridge-type families are mutually exclusive: is_mbc5 excludes is_mbc3. -/
theorem CartridgeType.not_mbc3_of_mbc5 (t : CartridgeType) (h : t.is_mbc5 = true) :
    t.is_mbc3 = false := by
  revert h; cases t <;> decide

/-- The wrapping checksum fold of Cartridge::verify_header_checksum equals the
mod-256 sum of 255 - b over the bytes, for any start value below 256. -/
theorem checksum_fold (l : List Nat) (a : Nat) (ha : a < 256) :
    l.foldl (fun chk b => u8_wrapping_sub (u8_wrapping_sub chk b) 1) a
      = (a + (l.map fun b => 255 - b % 256).sum) % 256 := by
  induction l generalizing a with
  | nil => simpa using (Nat.mod_eq_of_lt ha).symm
  | cons b t ih =>
    simp only [List.foldl_cons, List.map_cons, List.sum_cons]
    rw [ih _ (by unfold u8_wrapping_sub; omega)]
    unfold u8_wrapping_sub
    omega

/-- Claim C9: for an 80-byte cartridge header, verify_header_checksum()
returns true exactly when the stored checksum byte at header offset 0x4D
equals the wrapping 8-bit sum over header bytes 0x34..=0x4C of -b - 1; in
particular it returns true for every conforming header. -/
theorem c9_verify_header_checksum (c : Cartridge) (_hlen : c.header.length = 80) :
    c.verify_header_checksum = true ↔ c.header_checksum = spec_header_checksum c := by
  unfold Cartridge.verify_header_checksum spec_header_checksum
  rw [checksum_fold _ 0 (by omega)]
  simp only [Nat.zero_add, beq_iff_eq]
  exact eq_comm

/-- Fixture: a conforming 80-byte header, all data bytes zero, stored
checksum 0xE7 = 25 * 255 mod 256 at offset 0x4D. -/
def sample_header : List Nat := List.replicate 77 0 ++ [0xE7, 0, 0]

/-- Witness for claim C9 at a concrete conforming header. -/
theorem c9_verify_header_checksum_witness :
    Cartridge.verify_header_checksum ⟨sample_header⟩ = true :=
  (c9_verify_header_checksum ⟨sample_header⟩ (by decide)).mpr (by decide)

/-- Projection helper: the active bank of banked work RAM. -/
def Memory.Ram.active_bank? : Memory.Ram → Option Nat
  | .Banked _ b => some b
  | .Unbanked _ => none

/-- Claim C7 (amended): on CGB work RAM, update_bank(v) sets the
switchable-bank index to v AND 0x07 -- a write of 0 selects index 0, not
max(1, v AND 0x07); nevertheless accesses to 0xD000..=0xDFFF index the data
at active_bank * 4096 + (addr - 0xC000), an offset of at least 0x1000, so
they never touch the fixed bank-0 bytes 0..=0xFFF. -/
theorem c7_wram_bank_amended (data : List Nat) (b v : Nat) :
    Memory.Ram.update_bank (Memory.Ram.Banked data b) v
        = some (Memory.Ram.Banked data (v &&& 0x07))
      ∧ ∀ addr, 0xD000 ≤ addr → addr ≤ 0xDFFF →
          Memory.Ram.read (Memory.Ram.Banked data b) addr
              = data.get? (b * Memory.Ram.BANK_SIZE + (addr - 0xC000))
            ∧ 0x1000 ≤ addr - 0xC000 := by
  refine ⟨rfl, fun addr h1 h2 => ⟨?_, by omega⟩⟩
  have hred : Memory.Ram.read (Memory.Ram.Banked data b) addr
      = if addr - 0xC000 ≤ 0x0FFF then data.get? (addr - 0xC000)
        else data.get? (b * Memory.Ram.BANK_SIZE + (addr - 0xC000)) := rfl
  rw [hred, if_neg (by omega)]

/-- Counterexample to claim C7 as stated: writing 0 to the CGB work-RAM bank
register yields active_bank 0, not max(1, 0 AND 0x07) = 1. -/
theorem c7_wram_bank_cex :
    ((Memory.Ram.new true).update_bank 0).bind Memory.Ram.active_bank? = some 0
      ∧ (0 : Nat) ≠ max 1 (0 &&& 0x07) :=
  ⟨rfl, by decide⟩

/-- Witness for the amended claim C7 at a concrete bank and address. -/
theorem c7_wram_bank_witness :
    Memory.Ram.read (Memory.Ram.Banked [] 0) 0xD000
        = ([] : List Nat).get? (0 * Memory.Ram.BANK_SIZE + (0xD000 - 0xC000))
      ∧ 0x1000 ≤ 0xD000 - 0xC000 :=
  (c7_wram_bank_amended [] 0 0).2 0xD000 (by decide) (by decide)

/-- Claim C10: a cartridge declaring 2 KiB of RAM allocates exactly 2048
bytes, while the bus maps the full 8 KiB window with offset addr - 0xA000;
for every address in 0xA800..=0xBFFF the computed index reaches past the end
of the data vector, so the read and the write panic (out-of-bounds index)
instead of wrapping or returning open-bus. -/
theorem c10_ram_2k_oob (addr : Nat) (h1 : 0xA800 ≤ addr) (h2 : addr ≤ 0xBFFF)
    (r : Ram) (hr : Ram.new RamSize.R2K = some r) :
    r.data.length = 2048
      ∧ 2048 ≤ r.active_bank * Ram.BANK_SIZE + (addr - Ram.BASE_ADDR)
      ∧ r.read addr = none
      ∧ (∀ v, r.write addr v = none)
      ∧ MemoryBus.read_cart_ram ram2k_test addr = none := by
  have h0 : Ram.new RamSize.R2K =
      some ⟨List.replicate 2048 0, 0, 1, RamSize.R2K⟩ := rfl
  rw [h0] at hr
  obtain rfl := Option.some.inj hr
  have hread : Ram.read ⟨List.replicate 2048 0, 0, 1, RamSize.R2K⟩ addr = none := by
    unfold Ram.read Ram.BANK_SIZE Ram.BASE_ADDR
    refine List.get?_eq_none.mpr ?_
    simp only [List.length_replicate]
    omega
  refine ⟨by rw [List.length_replicate], ?_, hread, fun v => ?_, ?_⟩
  · unfold Ram.BANK_SIZE Ram.BASE_ADDR
    omega
  · unfold Ram.write Ram.BANK_SIZE Ram.BASE_ADDR
    rw [if_neg (by simp only [List.length_replicate]; omega)]
  · show ram2k_test.ram.bind (fun r => r.read addr) = none
    have hbus : ram2k_test.ram
        = some (⟨List.replicate 2048 0, 0, 1, RamSize.R2K⟩ : Ram) := h0
    rw [hbus, Option.some_bind]
    exact hread

/-- Witness for claim C10 at the concrete address 0xA800. -/
theorem c10_ram_2k_oob_witness :
    (⟨List.replicate 2048 0, 0, 1, RamSize.R2K⟩ : Ram).data.length = 2048
      ∧ 2048 ≤ (⟨List.replicate 2048 0, 0, 1, RamSize.R2K⟩ : Ram).active_bank
            * Ram.BANK_SIZE + (0xA800 - Ram.BASE_ADDR)
      ∧ Ram.read ⟨List.replicate 2048 0, 0, 1, RamSize.R2K⟩ 0xA800 = none
      ∧ (∀ v, Ram.write ⟨List.replicate 2048 0, 0, 1, RamSize.R2K⟩ 0xA800 v = none)
      ∧ MemoryBus.read_cart_ram ram2k_test 0xA800 = none :=
  c10_ram_2k_oob 0xA800 (by decide) (by decide) _ rfl

/-- Inversion for Rom::update_bank: a successful call means the bank was in
range and only active_bank_1 changed. -/
theorem update_bank_some (r : Rom) (b : Nat) (r' : Rom)
    (h : r.update_bank b = some r') :
    r' = { r with active_bank_1 := b } ∧ b < r.num_banks := by
  unfold Rom.update_bank at h
  split at h
  · exact ⟨(Option.some.inj h).symm, by assumption⟩
  · exact Option.noConfusion h

/-- Inversion for Rom::update_bank_0: a successful call means the bank was in
range and only active_bank_0 changed. -/
theorem update_bank_0_some (r : Rom) (b : Nat) (r' : Rom)
    (h : r.update_bank_0 b = some r') :
    r' = { r with active_bank_0 := b } ∧ b < r.num_banks := by
  unfold Rom.update_bank_0 at h
  split at h
  · exact ⟨(Option.some.inj h).symm, by assumption⟩
  · exact Option.noConfusion h

/-- Ram::set_bank preserves the cartridge-RAM invariant: the mask with
num_banks - 1 keeps the active bank in range. -/
theorem set_bank_inv (r : Ram) (b : Nat) (hr : r.Inv) : (r.set_bank b).Inv := by
  obtain ⟨hn, _⟩ := hr
  refine ⟨hn, ?_⟩
  have hle : b &&& (r.num_banks - 1) ≤ r.num_banks - 1 := Nat.and_le_right
  show b &&& (r.num_banks - 1) < r.num_banks
  omega

/-- Ram::write leaves the bank bookkeeping unchanged when it succeeds. -/
theorem ram_write_some (r : Ram) (addr v : Nat) (r' : Ram)
    (h : r.write addr v = some r') :
    r'.num_banks = r.num_banks ∧ r'.active_bank = r.active_bank := by
  replace h :
      (if r.active_bank * Ram.BANK_SIZE + (addr - Ram.BASE_ADDR) < r.data.length
        then some { r with
          data := r.data.set (r.active_bank * Ram.BANK_SIZE + (addr - Ram.BASE_ADDR)) v }
        else none) = some r' := h
  split at h
  · obtain rfl := Option.some.inj h
    exact ⟨rfl, rfl⟩
  · exact Option.noConfusion h

/-- Claim C1 (amended): on an MBC1 cartridge, a write of v to 0x2000..=0x3FFF
sets bank_high to w = v AND 0x1F with 0 substituted by 1, discarding the
upper two bits of the previous bank_high rather than preserving them; the
write succeeds when w is below the bank count. -/
theorem c1_mbc1_low5_amended (c : Controller) (addr value : Nat)
    (hty : c.cartridge_type.is_mbc1 = true) (h1 : 0x2000 ≤ addr) (h2 : addr ≤ 0x3FFF)
    (hb : (if value &&& 0x1F = 0 then 1 else value &&& 0x1F) < c.rom.num_banks) :
    c.write addr value = some { c with rom := { c.rom with
      active_bank_1 := if value &&& 0x1F = 0 then 1 else value &&& 0x1F } } := by
  unfold Controller.write
  rw [if_neg (by rintro ⟨ha, -⟩; omega), if_pos ⟨h1, h2, hty⟩]
  show (c.rom.update_bank (if value &&& 0x1F = 0 then 1 else value &&& 0x1F)).map
      (fun r2 => { c with rom := r2 }) = _
  unfold Rom.update_bank
  rw [if_pos hb]
  rfl

/-- Counterexample to claim C1 as stated: on an MBC1 cartridge with a 2 MiB
ROM, after bank_high = 0x41 (from a simple-mode upper-bits write of 0x02 to
0x4000), writing 0x05 to 0x2000 yields bank_high = 5, not
(0x41 AND 0x60) OR 5 = 0x45: the upper two bits are not preserved. -/
theorem c1_mbc1_low5_cex :
    ((mbc1_2m.write 0x4000 0x02).bind fun c => c.write 0x2000 0x05).map
        (fun c => c.rom.active_bank_1) = some 5
      ∧ (5 : Nat) ≠ 0x41 &&& 0x60 ||| 5 :=
  ⟨by decide, by decide⟩

/-- Witness for the amended claim C1 at a concrete controller and write. -/
theorem c1_mbc1_low5_witness :
    Controller.new.write 0x2000 0 = some { Controller.new with
      rom := { Controller.new.rom with
        active_bank_1 := if 0 &&& 0x1F = 0 then 1 else 0 &&& 0x1F } } :=
  c1_mbc1_low5_amended Controller.new 0x2000 0 (by decide) (by decide) (by decide)
    (by decide)

/-- Claim C2 (amended): for 0xA000..=0xBFFF the bus reads cartridge RAM
directly -- it returns the RAM byte at active_bank * 8192 + (addr - 0xA000)
regardless of rtc_active and ram_enabled, and panics (unwrap of None) when no
RAM is present; Controller::read returns the selected RTC register when
rtc_active and the RAM byte otherwise, likewise panicking when the needed
store is absent. Neither path returns 0xFF. -/
theorem c2_cart_ram_read_amended (c : Controller) (addr : Nat)
    (h1 : 0xA000 ≤ addr) (h2 : addr ≤ 0xBFFF) :
    MemoryBus.read_cart_ram c addr
        = c.ram.bind (fun r =>
            r.data.get? (r.active_bank * Ram.BANK_SIZE + (addr - Ram.BASE_ADDR)))
      ∧ (c.rtc_active = false →
          c.read addr = c.ram.bind (fun r =>
            r.data.get? (r.active_bank * Ram.BANK_SIZE + (addr - Ram.BASE_ADDR))))
      ∧ (c.rtc_active = true → c.read addr = c.rtc.map Rtc.read) := by
  refine ⟨rfl, fun hrtc => ?_, fun hrtc => ?_⟩
  · unfold Controller.read
    rw [if_neg (by omega), if_pos ⟨h1, h2⟩, hrtc]
    rfl
  · unfold Controller.read
    rw [if_neg (by omega), if_pos ⟨h1, h2⟩, hrtc]
    rfl

/-- Counterexample to claim C2 as stated: on a cartridge without RAM (and
rtc_active false), the bus read of 0xA000 panics on the unwrap of a missing
RAM store; it does not return 0xFF. -/
theorem c2_cart_ram_read_cex :
    MemoryBus.read_cart_ram noram_test 0xA000 = none
      ∧ MemoryBus.read_cart_ram noram_test 0xA000 ≠ some 0xFF :=
  ⟨by decide, by decide⟩

/-- Witness for the amended claim C2 at the default controller and 0xA000. -/
theorem c2_cart_ram_read_witness :
    Controller.new.read 0xA000
      = Controller.new.ram.bind (fun r =>
          r.data.get? (r.active_bank * Ram.BANK_SIZE + (0xA000 - Ram.BASE_ADDR))) :=
  (c2_cart_ram_read_amended Controller.new 0xA000 (by decide) (by decide)).2.1 rfl

/-- Claim C3 (amended): on an MBC2 cartridge, a write of v to
0x0000..=0x3FFF with bit 7 of v clear is ignored entirely -- in particular a
RAM-enable request like v = 0x0A never changes ram_enabled; when bit 7 of v
is set, bit 8 of the address selects: if it is 0 the write still changes
nothing, and if it is 1 the write sets bank_high to v AND 0x0F with 0
substituted by 1 (succeeding when that bank is below the bank count). -/
theorem c3_mbc2_write_amended (c : Controller) (addr value : Nat)
    (hty : c.cartridge_type.is_mbc2 = true) (haddr : addr ≤ 0x3FFF) :
    (value &&& (1 <<< 7) = 0 → c.write addr value = some c)
      ∧ (value &&& (1 <<< 7) ≠ 0 → ((addr >>> 8) &&& 0xFF) &&& 1 = 0 →
          c.write addr value = some c)
      ∧ (value &&& (1 <<< 7) ≠ 0 → ((addr >>> 8) &&& 0xFF) &&& 1 ≠ 0 →
          (if value &&& 0xF = 0 then 1 else value &&& 0xF) < c.rom.num_banks →
          c.write addr value = some { c with rom := { c.rom with
            active_bank_1 := if value &&& 0xF = 0 then 1 else value &&& 0xF } }) := by
  have hm1 : c.cartridge_type.is_mbc1 = false := CartridgeType.not_mbc1_of_mbc2 _ hty
  have hw : c.write addr value =
      if value &&& (1 <<< 7) = 0 then some c
      else if ((addr >>> 8) &&& 0xFF) &&& 1 ≠ 0 then
        (c.rom.update_bank (if value &&& 0xF = 0 then 1 else value &&& 0xF)).map
          (fun r2 => { c with rom := r2 })
      else some c := by
    unfold Controller.write
    rw [if_neg (by simp [hm1]), if_neg (by simp [hm1]), if_neg (by simp [hm1]),
      if_neg (by simp [hm1]), if_pos ⟨haddr, hty⟩]
  refine ⟨fun hv => ?_, fun hv ha => ?_, fun hv ha hb => ?_⟩
  · rw [hw, if_pos hv]
  · rw [hw, if_neg hv, if_neg (by omega)]
  · rw [hw, if_neg hv, if_pos ha]
    unfold Rom.update_bank
    rw [if_pos hb]
    rfl

/-- Counterexample to claim C3 as stated: on an MBC2 cartridge, writing 0x0A
to 0x0000 (address bit 8 clear) leaves ram_enabled false instead of setting
it, and writing 0x03 to 0x0100 (address bit 8 set) leaves bank_high at 1
instead of setting it to 3 -- both writes have bit 7 of the value clear and
are discarded wholesale. -/
theorem c3_mbc2_write_cex :
    (mbc2_test.write 0x0000 0x0A).map (fun c => c.ram_enable) = some false
      ∧ ((mbc2_test.write 0x0100 0x03).map fun c => c.rom.active_bank_1) = some 1 :=
  ⟨by decide, by decide⟩

/-- Witness for the amended claim C3: a bank-select write with bit 7 set. -/
theorem c3_mbc2_write_witness :
    mbc2_test.write 0x0100 0x83 = some { mbc2_test with
      rom := { mbc2_test.rom with
        active_bank_1 := if 0x83 &&& 0xF = 0 then 1 else 0x83 &&& 0xF } } :=
  (c3_mbc2_write_amended mbc2_test 0x0100 0x83 (by decide) (by decide)).2.2
    (by decide) (by decide) (by decide)

/-- Claim C4 (code bug): on an MBC3 cartridge, a write to 0x4000..=0x5FFF
whose masked value v AND 0x0F lies outside 0..=3 and 8..=0xC reaches the
unreachable! arm of Controller::write and panics instead of being ignored;
concretely, writing 0x04 to 0x4000 panics. -/
theorem c4_mbc3_unreachable : mbc3_test.write 0x4000 0x04 = none := by decide

/-- Claim C5 (amended): after a write of 0x00 to 0x2000..=0x3FFF, an MBC1 or
MBC3 cartridge has bank_high = 1, never 0 (the zero value is substituted by
1); an MBC2 cartridge, however, ignores the write entirely because bit 7 of
the written value is clear, leaving bank_high unchanged rather than setting
it to 1. -/
theorem c5_zero_rewrite_amended (c : Controller) (addr : Nat)
    (h1 : 0x2000 ≤ addr) (h2 : addr ≤ 0x3FFF) (hnb : 2 ≤ c.rom.num_banks) :
    ((c.cartridge_type.is_mbc1 = true ∨ c.cartridge_type.is_mbc3 = true) →
        ∃ c', c.write addr 0 = some c' ∧ c'.rom.active_bank_1 = 1)
      ∧ (c.cartridge_type.is_mbc2 = true → c.write addr 0 = some c) := by
  constructor
  · rintro (hty | hty)
    · refine ⟨{ c with rom := { c.rom with active_bank_1 := 1 } }, ?_, rfl⟩
      unfold Controller.write
      rw [if_neg (by rintro ⟨ha, -⟩; omega), if_pos ⟨h1, h2, hty⟩]
      show (c.rom.update_bank 1).map (fun r2 => { c with rom := r2 }) = _
      unfold Rom.update_bank
      rw [if_pos (by omega)]
      rfl
    · have hm1 : c.cartridge_type.is_mbc1 = false :=
        CartridgeType.not_mbc1_of_mbc3 _ hty
      have hm2 : c.cartridge_type.is_mbc2 = false :=
        CartridgeType.not_mbc2_of_mbc3 _ hty
      refine ⟨{ c with rom := { c.rom with active_bank_1 := 1 } }, ?_, rfl⟩
      unfold Controller.write
      rw [if_neg (by simp [hm1]), if_neg (by simp [hm1]), if_neg (by simp [hm1]),
        if_neg (by simp [hm1]), if_neg (by simp [hm2]),
        if_neg (by rintro ⟨ha, -⟩; omega), if_pos ⟨h1, h2, hty⟩]
      show (c.rom.update_bank 1).map (fun r2 => { c with rom := r2 }) = _
      unfold Rom.update_bank
      rw [if_pos (by omega)]
      rfl
  · intro hty
    have hm1 : c.cartridge_type.is_mbc1 = false :=
      CartridgeType.not_mbc1_of_mbc2 _ hty
    unfold Controller.write
    rw [if_neg (by simp [hm1]), if_neg (by simp [hm1]), if_neg (by simp [hm1]),
      if_neg (by simp [hm1]), if_pos ⟨h2, hty⟩]
    rfl

/-- Counterexample to claim C5 as stated: on an MBC2 cartridge with
bank_high = 3 (set by writing 0x83 to 0x0100), a subsequent write of 0x00 to
0x0100 -- the high-bit address selector -- leaves bank_high at 3, not 1. -/
theorem c5_zero_rewrite_cex :
    ((mbc2_test.write 0x0100 0x83).bind fun c => c.write 0x0100 0x00).map
        (fun c => c.rom.active_bank_1) = some 3
      ∧ (3 : Nat) ≠ 1 :=
  ⟨by decide, by decide⟩

/-- Witness for the amended claim C5 on a concrete MBC1 controller. -/
theorem c5_zero_rewrite_witness :
    ∃ c', Controller.new.write 0x2000 0 = some c' ∧ c'.rom.active_bank_1 = 1 :=
  (c5_zero_rewrite_amended Controller.new 0x2000 (by decide) (by decide)
    (by decide)).1 (Or.inl (by decide))

/-- Unfolding helper: the RAM invariant of a present store. -/
theorem ramInvOpt_some {r : Ram} (h : ramInvOpt (some r)) : r.Inv := h

/-- Folding helper: the RAM invariant of a present store. -/
theorem ramInvOpt_of {r : Ram} (h : r.Inv) : ramInvOpt (some r) := h

/-- Controller::new satisfies the bank-index invariant. -/
theorem Controller.new_inv : Controller.Inv Controller.new := by
  refine ⟨by decide, by decide, ?_⟩
  show ramInvOpt (Ram.new RamSize.R8K)
  rw [show Ram.new RamSize.R8K
      = some ⟨List.replicate 8192 0, 0, 1, RamSize.R8K⟩ from rfl]
  exact ⟨by decide, by decide⟩

/-- Claim C6 (amended): every write that returns (does not panic) preserves
the bank-index invariant -- bank_low and bank_high stay below the ROM bank
count and, when RAM is present, its active bank stays below the RAM bank
count; however, writes are not panic-free: bank-select writes whose target
bank is out of range abort on the update_bank assertion, and register writes
that need a missing RAM or RTC store abort on unwrap. -/
theorem c6_bank_bounds_amended (c c' : Controller) (addr value : Nat)
    (h : c.Inv) (hw : c.write addr value = some c') : c'.Inv := by
  obtain ⟨h0, h1, h2⟩ := h
  unfold Controller.write at hw
  by_cases g1 : addr ≤ 0x1FFF ∧ c.cartridge_type.is_mbc1 = true
  · rw [if_pos g1] at hw
    by_cases ge : value &&& 0xF = 0xA
    · rw [if_pos ge] at hw
      obtain rfl := Option.some.inj hw
      exact ⟨h0, h1, h2⟩
    · rw [if_neg ge] at hw
      obtain rfl := Option.some.inj hw
      exact ⟨h0, h1, h2⟩
  rw [if_neg g1] at hw
  by_cases g2 : 0x2000 ≤ addr ∧ addr ≤ 0x3FFF ∧ c.cartridge_type.is_mbc1 = true
  · rw [if_pos g2, Option.map_eq_some'] at hw
    obtain ⟨x, hx, rfl⟩ := hw
    obtain ⟨rfl, hlt⟩ := update_bank_some _ _ _ hx
    exact ⟨h0, hlt, h2⟩
  rw [if_neg g2] at hw
  by_cases g3 : 0x4000 ≤ addr ∧ addr ≤ 0x5FFF ∧ c.cartridge_type.is_mbc1 = true
  · rw [if_pos g3] at hw
    by_cases g3a : c.ram_size.toBytes = RamSize.R32K.toBytes
    · rw [if_pos g3a, Option.map_eq_some'] at hw
      obtain ⟨r, hr, rfl⟩ := hw
      rw [hr] at h2
      exact ⟨h0, h1, ramInvOpt_of (set_bank_inv _ _ (ramInvOpt_some h2))⟩
    rw [if_neg g3a] at hw
    by_cases g3b : RomSize.S1M.toBytes ≤ c.rom_size.toBytes
    · rw [if_pos g3b] at hw
      by_cases g3c : (!c.banking_mode) = true
      · rw [if_pos g3c, Option.map_eq_some'] at hw
        obtain ⟨x, hx, rfl⟩ := hw
        obtain ⟨rfl, hlt⟩ := update_bank_some _ _ _ hx
        exact ⟨h0, hlt, h2⟩
      · rw [if_neg g3c, Option.bind_eq_some] at hw
        obtain ⟨b0, hb0, hw2⟩ := hw
        rw [Option.map_eq_some'] at hw2
        obtain ⟨y, hy, rfl⟩ := hw2
        obtain ⟨rfl, hlt⟩ := update_bank_0_some _ _ _ hy
        exact ⟨hlt, h1, h2⟩
    · rw [if_neg g3b] at hw
      obtain rfl := Option.some.inj hw
      exact ⟨h0, h1, h2⟩
  rw [if_neg g3] at hw
  by_cases g4 : 0x6000 ≤ addr ∧ addr ≤ 0x7FFF ∧ c.cartridge_type.is_mbc1 = true
  · rw [if_pos g4] at hw
    by_cases g4a : ¬ RamSize.R32K.toBytes ≤ c.ram_size.toBytes ∧
        ¬ RomSize.S1M.toBytes ≤ c.rom_size.toBytes
    · rw [if_pos g4a] at hw
      obtain rfl := Option.some.inj hw
      exact ⟨h0, h1, h2⟩
    rw [if_neg g4a] at hw
    by_cases g4b : c.ram_enable = true ∧ RamSize.R32K.toBytes ≤ c.ram_size.toBytes ∧
        (value &&& 0x01 == 1) = true
    · rw [if_pos g4b, Option.map_eq_some'] at hw
      obtain ⟨r, hr, rfl⟩ := hw
      rw [hr] at h2
      exact ⟨h0, h1, ramInvOpt_of (set_bank_inv _ _ (ramInvOpt_some h2))⟩
    · rw [if_neg g4b] at hw
      obtain rfl := Option.some.inj hw
      exact ⟨h0, h1, h2⟩
  rw [if_neg g4] at hw
  by_cases g5 : addr ≤ 0x3FFF ∧ c.cartridge_type.is_mbc2 = true
  · rw [if_pos g5] at hw
    by_cases g5a : value &&& (1 <<< 7) = 0
    · rw [if_pos g5a] at hw
      obtain rfl := Option.some.inj hw
      exact ⟨h0, h1, h2⟩
    rw [if_neg g5a] at hw
    by_cases g5b : ((addr >>> 8) &&& 0xFF) &&& 1 ≠ 0
    · rw [if_pos g5b, Option.map_eq_some'] at hw
      obtain ⟨x, hx, rfl⟩ := hw
      obtain ⟨rfl, hlt⟩ := update_bank_some _ _ _ hx
      exact ⟨h0, hlt, h2⟩
    · rw [if_neg g5b] at hw
      obtain rfl := Option.some.inj hw
      exact ⟨h0, h1, h2⟩
  rw [if_neg g5] at hw
  by_cases g6 : addr ≤ 0x1FFF ∧ c.cartridge_type.is_mbc3 = true
  · rw [if_pos g6] at hw
    obtain rfl := Option.some.inj hw
    exact ⟨h0, h1, h2⟩
  rw [if_neg g6] at hw
  by_cases g7 : 0x2000 ≤ addr ∧ addr ≤ 0x3FFF ∧ c.cartridge_type.is_mbc3 = true
  · rw [if_pos g7, Option.map_eq_some'] at hw
    obtain ⟨x, hx, rfl⟩ := hw
    obtain ⟨rfl, hlt⟩ := update_bank_some _ _ _ hx
    exact ⟨h0, hlt, h2⟩
  rw [if_neg g7] at hw
  by_cases g8 : 0x4000 ≤ addr ∧ addr ≤ 0x5FFF ∧ c.cartridge_type.is_mbc3 = true
  · rw [if_pos g8] at hw
    by_cases g8a : value &&& 0x0F ≤ 0x3
    · rw [if_pos g8a, Option.map_eq_some'] at hw
      obtain ⟨r, hr, rfl⟩ := hw
      rw [hr] at h2
      exact ⟨h0, h1, ramInvOpt_of (set_bank_inv _ _ (ramInvOpt_some h2))⟩
    rw [if_neg g8a] at hw
    by_cases g8b : 0x8 ≤ value &&& 0x0F ∧ value &&& 0x0F ≤ 0xC
    · rw [if_pos g8b, Option.map_eq_some'] at hw
      obtain ⟨t, ht, rfl⟩ := hw
      exact ⟨h0, h1, h2⟩
    · rw [if_neg g8b] at hw
      exact Option.noConfusion hw
  rw [if_neg g8] at hw
  by_cases g9 : 0x6000 ≤ addr ∧ addr ≤ 0x7FFF ∧ c.cartridge_type.is_mbc3 = true
  · rw [if_pos g9, Option.map_eq_some'] at hw
    obtain ⟨t, ht, rfl⟩ := hw
    exact ⟨h0, h1, h2⟩
  rw [if_neg g9] at hw
  by_cases g10 : addr ≤ 0x1FFF ∧ c.cartridge_type.is_mbc5 = true
  · rw [if_pos g10] at hw
    obtain rfl := Option.some.inj hw
    exact ⟨h0, h1, h2⟩
  rw [if_neg g10] at hw
  by_cases g11 : 0x2000 ≤ addr ∧ addr ≤ 0x2FFF ∧ c.cartridge_type.is_mbc5 = true
  · rw [if_pos g11, Option.map_eq_some'] at hw
    obtain ⟨x, hx, rfl⟩ := hw
    obtain ⟨rfl, hlt⟩ := update_bank_some _ _ _ hx
    exact ⟨h0, hlt, h2⟩
  rw [if_neg g11] at hw
  by_cases g12 : 0x3000 ≤ addr ∧ addr ≤ 0x3FFF ∧ c.cartridge_type.is_mbc5 = true
  · rw [if_pos g12, Option.map_eq_some'] at hw
    obtain ⟨x, hx, rfl⟩ := hw
    obtain ⟨rfl, hlt⟩ := update_bank_some _ _ _ hx
    exact ⟨h0, hlt, h2⟩
  rw [if_neg g12] at hw
  by_cases g13 : 0x4000 ≤ addr ∧ addr ≤ 0x5FFF ∧ c.cartridge_type.is_mbc5 = true
  · rw [if_pos g13, Option.map_eq_some'] at hw
    obtain ⟨r, hr, rfl⟩ := hw
    rw [hr] at h2
    exact ⟨h0, h1, ramInvOpt_of (set_bank_inv _ _ (ramInvOpt_some h2))⟩
  rw [if_neg g13] at hw
  by_cases g14 : 0xA000 ≤ addr ∧ addr ≤ 0xBFFF ∧ (!c.rtc_active) = true
  · rw [if_pos g14] at hw
    by_cases g14a : c.ram_enable = true
    · rw [if_pos g14a, Option.bind_eq_some] at hw
      obtain ⟨r, hr, hw2⟩ := hw
      rw [Option.map_eq_some'] at hw2
      obtain ⟨r2, hwr, rfl⟩ := hw2
      rw [hr] at h2
      obtain ⟨e1, e2⟩ := ram_write_some _ _ _ _ hwr
      have hri := ramInvOpt_some h2
      refine ⟨h0, h1, ramInvOpt_of ⟨?_, ?_⟩⟩
      · rw [e1]; exact hri.1
      · rw [e1, e2]; exact hri.2
    · rw [if_neg g14a] at hw
      obtain rfl := Option.some.inj hw
      exact ⟨h0, h1, h2⟩
  rw [if_neg g14] at hw
  by_cases g15 : 0xA000 ≤ addr ∧ addr ≤ 0xBFFF ∧ c.rtc_active = true
  · rw [if_pos g15] at hw
    by_cases g15a : c.ram_enable = true
    · rw [if_pos g15a, Option.map_eq_some'] at hw
      obtain ⟨t, ht, rfl⟩ := hw
      exact ⟨h0, h1, h2⟩
    · rw [if_neg g15a] at hw
      obtain rfl := Option.some.inj hw
      exact ⟨h0, h1, h2⟩
  rw [if_neg g15] at hw
  obtain rfl := Option.some.inj hw
  exact ⟨h0, h1, h2⟩

/-- Counterexample to claim C6 as stated: writes can abort. On the default
(MBC1, 2-bank ROM) controller, writing 0x05 to 0x2000 requests bank 5 of a
2-bank ROM and panics on the assert in Rom::update_bank. -/
theorem c6_bank_bounds_cex : Controller.new.write 0x2000 0x05 = none := by decide

/-- Witness for the amended claim C6: a concrete non-panicking write on the
default controller preserves the invariant. -/
theorem c6_bank_bounds_witness :
    Controller.Inv { Controller.new with ram_enable := true } :=
  c6_bank_bounds_amended Controller.new _ 0x0000 0x0A Controller.new_inv rfl

/-- Claim C8 (amended): on an MBC5 cartridge, a write of v to 0x3000..=0x3FFF
sets bank_high to old_bank_high OR ((v AND 1) shifted left by 8) -- the old
value is not masked with 0xFF first, so a write with bit 0 clear leaves
bank_high unchanged and bit 8 of bank_high is never cleared by this
register. -/
theorem c8_mbc5_bit8_amended (c : Controller) (addr value : Nat)
    (hty : c.cartridge_type.is_mbc5 = true) (h1 : 0x3000 ≤ addr) (h2 : addr ≤ 0x3FFF)
    (hb : c.rom.active_bank_1 ||| ((value &&& 0x1) <<< 8) < c.rom.num_banks) :
    c.write addr value = some { c with rom := { c.rom with
      active_bank_1 := c.rom.active_bank_1 ||| ((value &&& 0x1) <<< 8) } } := by
  have hm1 := CartridgeType.not_mbc1_of_mbc5 _ hty
  have hm2 := CartridgeType.not_mbc2_of_mbc5 _ hty
  have hm3 := CartridgeType.not_mbc3_of_mbc5 _ hty
  unfold Controller.write
  rw [if_neg (by simp [hm1]), if_neg (by simp [hm1]), if_neg (by simp [hm1]),
    if_neg (by simp [hm1]), if_neg (by simp [hm2]), if_neg (by simp [hm3]),
    if_neg (by simp [hm3]), if_neg (by simp [hm3]), if_neg (by simp [hm3]),
    if_neg (by rintro ⟨ha, -⟩; omega), if_neg (by rintro ⟨-, ha, -⟩; omega),
    if_pos ⟨h1, h2, hty⟩]
  unfold Rom.update_bank
  rw [if_pos hb]
  rfl

/-- Counterexample to claim C8 as stated: on an MBC5 cartridge with an 8 MiB
ROM, after bank_high = 0x101 (from writing 1 to 0x3000), writing 0 to 0x3000
leaves bank_high at 0x101; the claim's formula
(bank_high AND 0xFF) OR ((0 AND 1) shifted left 8) would give 1. -/
theorem c8_mbc5_bit8_cex :
    ((mbc5_8m.write 0x3000 1).bind fun c => c.write 0x3000 0).map
        (fun c => c.rom.active_bank_1) = some 0x101
      ∧ (0x101 : Nat) ≠ (0x101 &&& 0xFF) ||| ((0 &&& 1) <<< 8) :=
  ⟨by decide, by decide⟩

/-- Witness for the amended claim C8 on a concrete MBC5 controller. -/
theorem c8_mbc5_bit8_witness :
    mbc5_8m.write 0x3000 1 = some { mbc5_8m with rom := { mbc5_8m.rom with
      active_bank_1 := mbc5_8m.rom.active_bank_1 ||| ((1 &&& 0x1) <<< 8) } } :=
  c8_mbc5_bit8_amended mbc5_8m 0x3000 1 (by decide) (by decide) (by decide)
    (by decide)

end Gbc
